import Mathlib

/-!
Verification development for the restricted arithmetic-expression evaluator
in `src/calculator/app.py` (functions `_evaluate_ast` and `safe_eval`, the
operator tables `_ALLOWED_OPERATORS` / `_ALLOWED_UNARY_OPERATORS`, and the
`CalculatorState` dataclass).

Embedding conventions:
* Python numbers are modelled by `Value`: an exact integer (`Value.int`), a
  boolean (`Value.bool`; in Python `bool` is a subclass of `int`, so boolean
  constants pass the `isinstance(node.value, (int, float))` check and take part
  in arithmetic with values 0 and 1), or a float (`Value.float`).
* Float values are idealised as exact rationals (no IEEE-754 rounding,
  infinities or NaNs), but the host's `OverflowError` is modelled: the power
  operator raises `OverflowError` when a float-valued power's exact magnitude
  reaches the float range bound (idealised threshold `2 ^ 1024`; e.g.
  `9.9 ** 999`), and likewise when an int-like operand of a float power is
  too large to convert to a float.  Conversion overflow inside the six
  non-power operators is left idealised, as is the exact boundary rounding.
  Exponentiation with an in-range non-integer float exponent has an
  irrational (or, for negative bases, complex) result that a rational-valued
  model cannot carry; that branch of `pyPow` returns an unspecified
  placeholder value and raises no error, matching the host behaviour of
  returning a value without raising, and no theorem below depends on the
  placeholder.
* Exceptions become `Except`: `_evaluate_ast` raises `EvaluationError` (with
  the message recorded) or lets `OverflowError` propagate, the parser signals
  `PyErr.parseFail` (Python `SyntaxError`), and `safe_eval` catches exactly
  `SyntaxError` and `EvaluationError`, re-raising
  `EvaluationError("Invalid expression")` as the source does — an
  `OverflowError` escapes `safe_eval` to the caller.
* The host expression parser (`ast.parse` in `eval` mode) is embedded for the
  fragment this program exercises: integer and float literals, names, the
  keyword constants `True` / `False` / `None`, the binary operators
  `+ - * / // % **`, unary `+ -`, parentheses and spaces, per the documented
  host grammar (`arith -> term -> factor -> power -> atom`, with `**`
  right-associative and binding tighter than a unary sign on its left while
  its right operand is again a signed factor).
-/

/-- Python constant payloads as they appear on `ast.Constant` nodes. -/
inductive PyConst where
  | int (i : ℤ)
  | float (q : ℚ)
  | bool (b : Bool)
  | str (s : String)
  | noneLit
  | complexLit (re im : ℚ)
deriving DecidableEq

/-- A Python numeric value: `int`, `bool` (a subclass of `int`) or `float`. -/
inductive Value where
  | int (i : ℤ)
  | bool (b : Bool)
  | float (q : ℚ)
deriving DecidableEq

/-- The integer view of a value, defined exactly when the value is an `int`
or a `bool` (Python treats `True`/`False` as 1/0 in arithmetic). -/
def Value.asIntQ : Value → Option ℤ
  | .int i => some i
  | .bool b => some (cond b 1 0)
  | .float _ => none

/-- The numeric magnitude of a value as a rational. -/
def Value.toRat : Value → ℚ
  | .int i => (i : ℚ)
  | .bool b => cond b 1 0
  | .float q => q

/-- `operator.add`: integer-preserving when both operands are int-like. -/
def pyAdd (a b : Value) : Option Value :=
  match a.asIntQ, b.asIntQ with
  | some x, some y => some (.int (x + y))
  | _, _ => some (.float (a.toRat + b.toRat))

/-- `operator.sub`. -/
def pySub (a b : Value) : Option Value :=
  match a.asIntQ, b.asIntQ with
  | some x, some y => some (.int (x - y))
  | _, _ => some (.float (a.toRat - b.toRat))

/-- `operator.mul`. -/
def pyMult (a b : Value) : Option Value :=
  match a.asIntQ, b.asIntQ with
  | some x, some y => some (.int (x * y))
  | _, _ => some (.float (a.toRat * b.toRat))

/-- `operator.truediv`: always produces a float; `ZeroDivisionError`
(modelled as `none`) when the divisor is zero. -/
def pyDiv (a b : Value) : Option Value :=
  if b.toRat = 0 then none else some (.float (a.toRat / b.toRat))

/-- `operator.floordiv`: flooring division, integer-preserving on int-like
operands; `ZeroDivisionError` when the divisor is zero. -/
def pyFloorDiv (a b : Value) : Option Value :=
  match a.asIntQ, b.asIntQ with
  | some x, some y => if y = 0 then none else some (.int (Int.fdiv x y))
  | _, _ =>
    if b.toRat = 0 then none
    else some (.float ((⌊a.toRat / b.toRat⌋ : ℤ) : ℚ))

/-- `operator.mod`: floor-division-based remainder (`Int.fmod` has exactly
Python's sign convention); `ZeroDivisionError` when the divisor is zero. -/
def pyMod (a b : Value) : Option Value :=
  match a.asIntQ, b.asIntQ with
  | some x, some y => if y = 0 then none else some (.int (Int.fmod x y))
  | _, _ =>
    if b.toRat = 0 then none
    else some (.float (a.toRat - b.toRat * (⌊a.toRat / b.toRat⌋ : ℤ)))

/-- Exceptions an arithmetic operator can raise: `ZeroDivisionError`
(caught by `_evaluate_ast`'s try clause) or `OverflowError` (not caught). -/
inductive ArithErr where
  | zeroDivision
  | overflow
deriving DecidableEq

/-- Binary exponentiation with a fuel bound on the recursion depth (the
depth actually used is logarithmic in the exponent); `natPowFast_eq` below
proves it equal to `HPow.hPow` on naturals.  It is used in the overflow
conditions so that they reduce shallowly under kernel evaluation. -/
def powAux : ℕ → ℕ → ℕ → ℕ
  | 0, _, _ => 1
  | n + 1, b, e =>
    if e = 0 then 1
    else
      let h := powAux n (b * b) (e / 2)
      if e % 2 = 1 then b * h else h

/-- `natPowFast b e = b ^ e`, computed by binary exponentiation. -/
def natPowFast (b e : ℕ) : ℕ := powAux (e + 1) b e

/-- Idealised float range bound: magnitudes at or above `2 ^ 1024` overflow
the host's float type (the true threshold is the largest finite double,
marginally below `2 ^ 1024`; every concrete input in this file is far from
the boundary). -/
def floatMaxBound : ℚ := ((natPowFast 2 1024 : ℕ) : ℚ)

/-- Whether converting an int-like value to a float overflows the float
range (conversion of a float is the identity and never overflows). -/
def intFloatOverflow (v : Value) : Bool :=
  match v.asIntQ with
  | some x => floatMaxBound ≤ |(x : ℚ)|
  | none => false

/-- Decides `2 ^ 1024 ≤ |q| ^ (e / d)` (the float-range overflow condition
for a power with rational base `q` and exponent `e / d`, `d > 0`) by exact
natural-number comparison: raising both sides to the `d`-th power and
clearing the denominator turns the condition into
`2 ^ (1024 * d) * q.den ^ e ≤ |q.num| ^ e` for `e ≥ 0`, and into
`2 ^ (1024 * d) * |q.num| ^ |e| ≤ q.den ^ |e|` for `e < 0`. -/
def ratPowOverflow (q : ℚ) (e : ℤ) (d : ℕ) : Bool :=
  if 0 ≤ e then
    natPowFast 2 (1024 * d) * natPowFast q.den e.toNat ≤
      natPowFast q.num.natAbs e.toNat
  else
    natPowFast 2 (1024 * d) * natPowFast q.num.natAbs (-e).toNat ≤
      natPowFast q.den (-e).toNat

/-- `operator.pow`: int-like base and non-negative int-like exponent stay
integer (arbitrary precision, never overflows); a negative integer exponent
produces a float (`ZeroDivisionError` for base 0, `OverflowError` when an
operand is too large to convert to a float); float powers convert int-like
operands to floats (`OverflowError` on conversion overflow), compute an
integer-valued exponent exactly and raise `OverflowError` when the exact
result magnitude reaches the float range bound; an in-range non-integer
exponent yields the placeholder described in the header (Python returns an
irrational float or a complex number there), still raising
`ZeroDivisionError` for `0.0 ** negative` and `OverflowError` when the
exact magnitude `|base| ^ (num/den)` reaches the bound (compared exactly as
`|base| ^ num` against `bound ^ den`). -/
def pyPow (a b : Value) : Except ArithErr Value :=
  match a.asIntQ, b.asIntQ with
  | some x, some y =>
    if 0 ≤ y then .ok (.int (x ^ y.toNat))
    else if x = 0 then .error .zeroDivision
    else if floatMaxBound ≤ |(x : ℚ)| ∨ floatMaxBound ≤ |(y : ℚ)| then
      .error .overflow
    else .ok (.float ((x : ℚ) ^ y))
  | _, _ =>
    if intFloatOverflow a || intFloatOverflow b then .error .overflow
    else if (b.toRat).den = 1 then
      if a.toRat = 0 ∧ (b.toRat).num < 0 then .error .zeroDivision
      else if ratPowOverflow a.toRat (b.toRat).num 1 then .error .overflow
      else .ok (.float (a.toRat ^ (b.toRat).num))
    else
      if a.toRat = 0 then
        if b.toRat < 0 then .error .zeroDivision else .ok (.float 0)
      else if ratPowOverflow a.toRat (b.toRat).num (b.toRat).den then
        .error .overflow
      else .ok (.float 0)

/-- `operator.neg` (note `-True == -1`, an int). -/
def pyNeg : Value → Value
  | .int i => .int (-i)
  | .bool b => .int (-(cond b 1 0))
  | .float q => .float (-q)

/-- Binary operator node kinds of the host syntax tree (`ast.Add`, ...,
including the bitwise/shift kinds the evaluator rejects). -/
inductive BinOpKind where
  | add | sub | mult | div | pow | floorDiv | mod
  | bitOr | bitXor | bitAnd | lShift | rShift
deriving DecidableEq

/-- Unary operator node kinds (`ast.UAdd`, `ast.USub`, `ast.Not`). -/
inductive UnaryOpKind where
  | uAdd | uSub | notOp
deriving DecidableEq

/-- The host syntax-tree fragment reachable from an `eval`-mode parse that
this program inspects.  `call`, `compare`, `boolOp` and `attribute` carry
simplified payloads (e.g. a single comparator, no argument list): the
evaluator rejects these nodes before ever inspecting their contents. -/
inductive PyAst where
  | expression (body : PyAst)
  | constant (c : PyConst)
  | unaryOp (op : UnaryOpKind) (operand : PyAst)
  | binOp (op : BinOpKind) (left right : PyAst)
  | name (id : String)
  | call (func : PyAst)
  | compare (left right : PyAst)
  | boolOp (left right : PyAst)
  | attributeRef (obj : PyAst) (attr : String)
deriving DecidableEq

/-- Lifts the `Option Value` encoding of the six non-power operators (where
`none` means `ZeroDivisionError`) into the exception-typed result. -/
def liftZeroDiv : Option Value → Except ArithErr Value
  | some v => .ok v
  | none => .error .zeroDivision

/-- The dispatch table `_ALLOWED_OPERATORS`: exactly the seven arithmetic
binary operators are keys; `none` models absence from the dict. -/
def _ALLOWED_OPERATORS : BinOpKind → Option (Value → Value → Except ArithErr Value)
  | .add => some (fun a b => liftZeroDiv (pyAdd a b))
  | .sub => some (fun a b => liftZeroDiv (pySub a b))
  | .mult => some (fun a b => liftZeroDiv (pyMult a b))
  | .div => some (fun a b => liftZeroDiv (pyDiv a b))
  | .pow => some pyPow
  | .floorDiv => some (fun a b => liftZeroDiv (pyFloorDiv a b))
  | .mod => some (fun a b => liftZeroDiv (pyMod a b))
  | _ => none

/-- The dispatch table `_ALLOWED_UNARY_OPERATORS`: `UAdd` is the identity
lambda, `USub` is `operator.neg`; `Not` is absent. -/
def _ALLOWED_UNARY_OPERATORS : UnaryOpKind → Option (Value → Value)
  | .uAdd => some (fun a => a)
  | .uSub => some pyNeg
  | .notOp => none

/-- Errors surfaced by the modelled functions: `EvaluationError(msg)`, a
host parse failure (`SyntaxError`), or a host `OverflowError` (raised by an
arithmetic operator and caught by nothing in this program). -/
inductive PyErr where
  | evaluationError (msg : String)
  | parseFail
  | overflowError
deriving DecidableEq

deriving instance DecidableEq for Except

/-- The recursive evaluator `_evaluate_ast`, clause for clause: unwrap
`Expression`; accept `int`/`float` constants (which in the host includes
booleans, `bool` being a subclass of `int`) and reject other constants;
look up unary and binary operators in the dispatch tables, evaluating the
left child before the right and converting `ZeroDivisionError` into
`EvaluationError("Division by zero")` — the try clause catches only
`ZeroDivisionError`, so an `OverflowError` from the operator propagates —
and reject every other node kind. -/
def _evaluate_ast : PyAst → Except PyErr Value
  | .expression body => _evaluate_ast body
  | .constant c =>
    match c with
    | .int i => .ok (.int i)
    | .float q => .ok (.float q)
    | .bool b => .ok (.bool b)
    | _ => .error (.evaluationError "Unsupported constant")
  | .unaryOp op operand =>
    match _ALLOWED_UNARY_OPERATORS op with
    | some f =>
      match _evaluate_ast operand with
      | .ok v => .ok (f v)
      | .error e => .error e
    | none => .error (.evaluationError "Unsupported expression")
  | .binOp op l r =>
    match _ALLOWED_OPERATORS op with
    | some f =>
      match _evaluate_ast l with
      | .ok a =>
        match _evaluate_ast r with
        | .ok b =>
          match f a b with
          | .ok v => .ok v
          | .error .zeroDivision => .error (.evaluationError "Division by zero")
          | .error .overflow => .error .overflowError
        | .error e => .error e
      | .error e => .error e
    | none => .error (.evaluationError "Unsupported expression")
  | _ => .error (.evaluationError "Unsupported expression")

/-- Tokens of the embedded fragment of the host expression grammar. -/
inductive Token where
  | num (c : PyConst)
  | ident (s : String)
  | plus | minus | star | dstar | slash | dslash | percent | lparen | rparen
deriving DecidableEq

/-- Splits a leading run of decimal digits off a character list. -/
def takeDigits : List Char → List Char × List Char
  | [] => ([], [])
  | c :: cs =>
    if c.isDigit then
      let (ds, rest) := takeDigits cs
      (c :: ds, rest)
    else ([], c :: cs)

/-- Splits a leading run of identifier characters off a character list. -/
def takeIdent : List Char → List Char × List Char
  | [] => ([], [])
  | c :: cs =>
    if c.isAlphanum || c == '_' then
      let (ds, rest) := takeIdent cs
      (c :: ds, rest)
    else ([], c :: cs)

/-- Decimal value of a digit run. -/
def digitsToNat (ds : List Char) : ℕ :=
  ds.foldl (fun acc c => acc * 10 + (c.toNat - '0'.toNat)) 0

/-- Fuel-indexed scanner for the embedded fragment: integer and float
literals, identifiers/keywords, `+ - * / // % **`, parentheses, spaces.
Any other character is a host `SyntaxError` (result `none`). -/
def tokenizeAux : ℕ → List Char → Option (List Token)
  | 0, _ => none
  | _ + 1, [] => some []
  | n + 1, c :: cs =>
    if c == ' ' then tokenizeAux n cs
    else if c.isDigit then
      let (ds, rest) := takeDigits (c :: cs)
      match rest with
      | '.' :: rest2 =>
        let (fs, rest3) := takeDigits rest2
        let v : ℚ := (digitsToNat ds : ℚ) + (digitsToNat fs : ℚ) / (10 : ℚ) ^ fs.length
        (tokenizeAux n rest3).map (fun ts => Token.num (.float v) :: ts)
      | _ => (tokenizeAux n rest).map (fun ts => Token.num (.int (digitsToNat ds)) :: ts)
    else if c.isAlpha || c == '_' then
      let (ws, rest) := takeIdent (c :: cs)
      (tokenizeAux n rest).map (fun ts => Token.ident (String.mk ws) :: ts)
    else if c == '+' then (tokenizeAux n cs).map (Token.plus :: ·)
    else if c == '-' then (tokenizeAux n cs).map (Token.minus :: ·)
    else if c == '*' then
      match cs with
      | '*' :: cs2 => (tokenizeAux n cs2).map (Token.dstar :: ·)
      | _ => (tokenizeAux n cs).map (Token.star :: ·)
    else if c == '/' then
      match cs with
      | '/' :: cs2 => (tokenizeAux n cs2).map (Token.dslash :: ·)
      | _ => (tokenizeAux n cs).map (Token.slash :: ·)
    else if c == '%' then (tokenizeAux n cs).map (Token.percent :: ·)
    else if c == '(' then (tokenizeAux n cs).map (Token.lparen :: ·)
    else if c == ')' then (tokenizeAux n cs).map (Token.rparen :: ·)
    else none

/-- Scanner entry point. -/
def tokenize (s : String) : Option (List Token) :=
  tokenizeAux (s.toList.length + 1) s.toList

/-- Grammar levels of the host expression grammar, with accumulators for the
left-associative chains: `arith` (`+`/`-`), `term` (`*` `/` `//` `%`),
`factor` (unary sign), `power` (`**`, right-associative, right operand a
signed factor), `atom` (literal, name, keyword constant, parentheses). -/
inductive PLv where
  | arith | arithL (acc : PyAst) | term | termL (acc : PyAst)
  | factor | power | atom

/-- Fuel-indexed recursive-descent parser for the embedded fragment of the
host grammar, producing the node shapes `ast.parse` produces (so `-2**2`
parses as `-(2**2)` and `2**3**2` as `2**(3**2)`). -/
def parseLv : ℕ → PLv → List Token → Except PyErr (PyAst × List Token)
  | 0, _, _ => .error .parseFail
  | n + 1, lv, ts =>
    match lv, ts with
    | .arith, ts => do
      let (t, ts1) ← parseLv n .term ts
      parseLv n (.arithL t) ts1
    | .arithL acc, Token.plus :: ts => do
      let (t, ts1) ← parseLv n .term ts
      parseLv n (.arithL (.binOp .add acc t)) ts1
    | .arithL acc, Token.minus :: ts => do
      let (t, ts1) ← parseLv n .term ts
      parseLv n (.arithL (.binOp .sub acc t)) ts1
    | .arithL acc, ts => .ok (acc, ts)
    | .term, ts => do
      let (f, ts1) ← parseLv n .factor ts
      parseLv n (.termL f) ts1
    | .termL acc, Token.star :: ts => do
      let (f, ts1) ← parseLv n .factor ts
      parseLv n (.termL (.binOp .mult acc f)) ts1
    | .termL acc, Token.slash :: ts => do
      let (f, ts1) ← parseLv n .factor ts
      parseLv n (.termL (.binOp .div acc f)) ts1
    | .termL acc, Token.dslash :: ts => do
      let (f, ts1) ← parseLv n .factor ts
      parseLv n (.termL (.binOp .floorDiv acc f)) ts1
    | .termL acc, Token.percent :: ts => do
      let (f, ts1) ← parseLv n .factor ts
      parseLv n (.termL (.binOp .mod acc f)) ts1
    | .termL acc, ts => .ok (acc, ts)
    | .factor, Token.plus :: ts => do
      let (f, ts1) ← parseLv n .factor ts
      .ok (.unaryOp .uAdd f, ts1)
    | .factor, Token.minus :: ts => do
      let (f, ts1) ← parseLv n .factor ts
      .ok (.unaryOp .uSub f, ts1)
    | .factor, ts => parseLv n .power ts
    | .power, ts => do
      let (a, ts1) ← parseLv n .atom ts
      match ts1 with
      | Token.dstar :: ts2 => do
        let (f, ts3) ← parseLv n .factor ts2
        .ok (.binOp .pow a f, ts3)
      | _ => .ok (a, ts1)
    | .atom, Token.num c :: ts => .ok (.constant c, ts)
    | .atom, Token.ident s :: ts =>
      if s == "True" then .ok (.constant (.bool true), ts)
      else if s == "False" then .ok (.constant (.bool false), ts)
      else if s == "None" then .ok (.constant .noneLit, ts)
      else .ok (.name s, ts)
    | .atom, Token.lparen :: ts => do
      let (e, ts1) ← parseLv n .arith ts
      match ts1 with
      | Token.rparen :: ts2 => .ok (e, ts2)
      | _ => .error .parseFail
    | .atom, _ => .error .parseFail

/-- Model of `ast.parse(text, mode="eval")` on the embedded fragment: scan,
parse a full expression, require the input to be exhausted, and wrap the
result in an `Expression` node.  Anything else is a `SyntaxError`. -/
def parseExpr (s : String) : Except PyErr PyAst :=
  match tokenize s with
  | none => .error .parseFail
  | some ts =>
    match parseLv (6 * (ts.length + 1)) .arith ts with
    | .ok (t, []) => .ok (.expression t)
    | _ => .error .parseFail

/-- `safe_eval`: parse then evaluate; the source's
`except (SyntaxError, EvaluationError)` clause catches exactly those two
kinds and re-raises `EvaluationError("Invalid expression")`, while an
`OverflowError` raised during evaluation is not caught and escapes to the
caller. -/
def safe_eval (expression : String) : Except PyErr Value :=
  match parseExpr expression with
  | .error _ => .error (.evaluationError "Invalid expression")
  | .ok parsed =>
    match _evaluate_ast parsed with
    | .ok v => .ok v
    | .error (.evaluationError _) => .error (.evaluationError "Invalid expression")
    | .error .parseFail => .error (.evaluationError "Invalid expression")
    | .error .overflowError => .error .overflowError

/-- The `CalculatorState` dataclass: expression text, result display text,
error display text, with their dataclass defaults. -/
structure CalculatorState where
  expression : String := ""
  result : String := "0"
  error : String := ""
deriving DecidableEq

/-- `CalculatorState.append`: concatenate onto the expression text. -/
def CalculatorState.append (s : CalculatorState) (value : String) : CalculatorState :=
  { s with expression := s.expression ++ value }

/-- `CalculatorState.clear`: reset all three fields to their defaults. -/
def CalculatorState.clear (_s : CalculatorState) : CalculatorState :=
  { expression := "", result := "0", error := "" }

/-- `CalculatorState.backspace`: drop the last character when the expression
text is non-empty (Python truthiness of the string), otherwise do nothing. -/
def CalculatorState.backspace (s : CalculatorState) : CalculatorState :=
  if s.expression = "" then s
  else { s with expression := s.expression.dropRight 1 }

/-- Fuel-indexed binary exponentiation computes the natural-number power
whenever the fuel bounds the exponent. -/
theorem powAux_eq : ∀ n b e, e ≤ n → powAux n b e = b ^ e := by
  intro n
  induction n with
  | zero =>
    intro b e he
    have h0 : e = 0 := Nat.le_zero.mp he
    subst h0
    simp [powAux]
  | succ n ih =>
    intro b e he
    by_cases h0 : e = 0
    · subst h0; simp [powAux]
    · have h2 : e / 2 ≤ n := by omega
      have hrec := ih (b * b) (e / 2) h2
      by_cases hodd : e % 2 = 1
      · have he2 : 2 * (e / 2) + 1 = e := by omega
        simp only [powAux, if_neg h0, if_pos hodd]
        calc b * powAux n (b * b) (e / 2)
            = b * (b * b) ^ (e / 2) := by rw [hrec]
          _ = b * (b ^ 2) ^ (e / 2) := by rw [pow_two]
          _ = b * b ^ (2 * (e / 2)) := by rw [← pow_mul]
          _ = b ^ (2 * (e / 2) + 1) := (pow_succ' b _).symm
          _ = b ^ e := by rw [he2]
      · have he2 : 2 * (e / 2) = e := by omega
        simp only [powAux, if_neg h0, if_neg hodd]
        calc powAux n (b * b) (e / 2)
            = (b * b) ^ (e / 2) := hrec
          _ = (b ^ 2) ^ (e / 2) := by rw [pow_two]
          _ = b ^ (2 * (e / 2)) := by rw [← pow_mul]
          _ = b ^ e := by rw [he2]

/-- `natPowFast` agrees with the natural-number power operator. -/
theorem natPowFast_eq (b e : ℕ) : natPowFast b e = b ^ e :=
  powAux_eq (e + 1) b e (Nat.le_succ e)

/-- C4 counterexample: the claim says boolean literals are rejected with an
evaluation error, but `bool` is a subclass of `int` in the host language, so
the constant check `isinstance(node.value, (int, float))` accepts `True`:
`safe_eval("True")` returns the value `True` instead of failing. -/
theorem c4_counterexample :
    safe_eval "True" = .ok (.bool true) := by decide

/-- C4 amended: string, none-value and complex literals are rejected with
the `EvaluationError("Unsupported constant")`; boolean literals, however,
are accepted (booleans being a subclass of integers, they pass the
`isinstance(node.value, (int, float))` check) and evaluate to themselves,
as do integer and float literals. -/
theorem c4_amended_constant_policy :
    (∀ s : String, _evaluate_ast (.constant (.str s)) =
        .error (.evaluationError "Unsupported constant")) ∧
    _evaluate_ast (.constant .noneLit) =
      .error (.evaluationError "Unsupported constant") ∧
    (∀ re im : ℚ, _evaluate_ast (.constant (.complexLit re im)) =
        .error (.evaluationError "Unsupported constant")) ∧
    (∀ b : Bool, _evaluate_ast (.constant (.bool b)) = .ok (.bool b)) ∧
    (∀ i : ℤ, _evaluate_ast (.constant (.int i)) = .ok (.int i)) ∧
    (∀ q : ℚ, _evaluate_ast (.constant (.float q)) = .ok (.float q)) := by
  refine ⟨fun s => ?_, ?_, fun re im => ?_, fun b => ?_, fun i => ?_, fun q => ?_⟩ <;>
    simp [_evaluate_ast]

/-- C5 counterexample: the claim's parenthetical "unary binds tighter than
`**`" would parse `-2**2` as `(-2)**2`, whose tree evaluates to `4`; the
host grammar instead binds `**` tighter than a unary sign on its left, so
`safe_eval("-2**2")` returns `-4`, not `4`. -/
theorem c5_counterexample :
    safe_eval "-2**2" = .ok (.int (-4)) ∧
    _evaluate_ast
      (.expression (.binOp .pow (.unaryOp .uSub (.constant (.int 2)))
        (.constant (.int 2)))) = .ok (.int 4) ∧
    Value.int (-4) ≠ Value.int 4 := by decide

unseal Rat.mul Rat.inv Rat.add Rat.sub in
/-- C5 amended: for syntactically valid arithmetic expressions built from
numeric literals, `+ - * / // % **`, unary `+ -` and parentheses,
`safe_eval` returns the mathematically correct value under the host
precedence and associativity: `**` is right-associative and binds tighter
than unary `+`/`-` on its left (so `-2**2 = -(2**2) = -4`) while its right
operand may itself be signed (`2**-1 = 0.5`); `* / // %` bind tighter than
`+`/`-` and are left-associative; `+`/`-` are left-associative; parentheses
override precedence; in particular `safe_eval("1+2*3") = 7`,
`safe_eval("10%3") = 1`, and `safe_eval("-5 + 2") = -3`. -/
theorem c5_amended_precedence :
    safe_eval "1+2*3" = .ok (.int 7) ∧
    safe_eval "10%3" = .ok (.int 1) ∧
    safe_eval "-5 + 2" = .ok (.int (-3)) ∧
    safe_eval "2**3**2" = .ok (.int 512) ∧
    safe_eval "10-3-2" = .ok (.int 5) ∧
    safe_eval "8/2/2" = .ok (.float 2) ∧
    safe_eval "100//7" = .ok (.int 14) ∧
    safe_eval "2*3%4" = .ok (.int 2) ∧
    safe_eval "-2**2" = .ok (.int (-4)) ∧
    safe_eval "2**-1" = .ok (.float (1/2)) ∧
    safe_eval "(1+2)*3" = .ok (.int 9) ∧
    safe_eval "+4" = .ok (.int 4) := by decide

unseal Rat.mul Rat.inv Rat.add Rat.sub in
/-- C6: `safe_eval("2**3")` yields the exact integer `8`, while
`safe_eval("(4-1)/3")` yields the floating-point value `1.0`; more
generally, whenever true division (`operator.truediv`, the function the
dispatch table binds to `/`) succeeds, its result is a float — never an
integer — even when the quotient is exact. -/
theorem c6_integer_preserving_promotion :
    safe_eval "2**3" = .ok (.int 8) ∧
    safe_eval "(4-1)/3" = .ok (.float 1) ∧
    safe_eval "4/2" = .ok (.float 2) ∧
    ∀ (a b v : Value), pyDiv a b = some v → ∃ q : ℚ, v = .float q := by
  refine ⟨by decide, by decide, by decide, fun a b v h => ?_⟩
  unfold pyDiv at h
  split at h
  · exact absurd h (by simp)
  · exact ⟨a.toRat / b.toRat, (Option.some.inj h).symm⟩

unseal Rat.mul Rat.inv Rat.add Rat.sub in
/-- C6 witness: instantiating the universally quantified conjunct at the
exactly divisible operands `4` and `2`, whose true-division result is the
float `2.0`. -/
theorem c6_witness :
    pyDiv (Value.int 4) (Value.int 2) = some (Value.float 2) ∧
    ∃ q : ℚ, Value.float 2 = Value.float q :=
  ⟨by decide,
   c6_integer_preserving_promotion.2.2.2 (Value.int 4) (Value.int 2)
     (Value.float 2) (by decide)⟩

/-- Bounds of the floor-based remainder for a negative divisor: the result
lies strictly above the divisor and at or below zero. -/
theorem fmod_neg_bounds (a b : ℤ) (hb : b < 0) :
    b < Int.fmod a b ∧ Int.fmod a b ≤ 0 := by
  obtain ⟨n, rfl⟩ : ∃ n : ℕ, b = Int.negSucc n := by
    cases b with
    | ofNat m => rw [Int.ofNat_eq_coe] at hb; exact absurd hb (by omega)
    | negSucc n => exact ⟨n, rfl⟩
  cases a with
  | ofNat m =>
    cases m with
    | zero =>
      have : Int.fmod (Int.ofNat 0) (Int.negSucc n) = 0 := rfl
      rw [this]; omega
    | succ m =>
      have h1 : m % (n + 1) < n + 1 := Nat.mod_lt _ (Nat.succ_pos n)
      have h2 : Int.fmod (Int.ofNat (m + 1)) (Int.negSucc n) =
          Int.subNatNat (m % (n + 1)) n := rfl
      rw [h2, Int.subNatNat_eq_coe, Int.negSucc_eq]
      omega
  | negSucc m =>
    have h1 : (m + 1) % (n + 1) < n + 1 := Nat.mod_lt _ (Nat.succ_pos n)
    have h2 : Int.fmod (Int.negSucc m) (Int.negSucc n) =
        -Int.ofNat ((m + 1) % (n + 1)) := rfl
    rw [h2, Int.ofNat_eq_coe, Int.negSucc_eq]
    omega

/-- C7: For integer operands `a` and `b` with `b` nonzero, `a % b` computes
the floor-division-based remainder `Int.fmod a b`, whose result has the
same sign as the divisor: non-negative and below `b` for positive `b`,
non-positive and above `b` for negative `b`. -/
theorem c7_mod_sign (a b : ℤ) (hb : b ≠ 0) :
    _evaluate_ast (.binOp .mod (.constant (.int a)) (.constant (.int b))) =
      .ok (.int (Int.fmod a b)) ∧
    (0 < b → 0 ≤ Int.fmod a b ∧ Int.fmod a b < b) ∧
    (b < 0 → b < Int.fmod a b ∧ Int.fmod a b ≤ 0) := by
  refine ⟨?_, fun h => ⟨Int.fmod_nonneg' a h, Int.fmod_lt_of_pos a h⟩,
    fun h => fmod_neg_bounds a b h⟩
  simp [_evaluate_ast, _ALLOWED_OPERATORS, liftZeroDiv, pyMod, Value.asIntQ, hb]

/-- C7 witness: `-7 % 3` evaluates to `2` (sign of the divisor `3`) and
`7 % -3` evaluates to `-2` (sign of the divisor `-3`). -/
theorem c7_witness :
    ((3 : ℤ) ≠ 0) ∧
    _evaluate_ast (.binOp .mod (.constant (.int (-7))) (.constant (.int 3))) =
      .ok (.int 2) ∧
    ((-3 : ℤ) ≠ 0) ∧
    _evaluate_ast (.binOp .mod (.constant (.int 7)) (.constant (.int (-3)))) =
      .ok (.int (-2)) :=
  ⟨by decide, ((c7_mod_sign (-7) 3 (by decide)).1).trans (by decide),
   by decide, ((c7_mod_sign 7 (-3) (by decide)).1).trans (by decide)⟩

/-- C8: Determinism/purity of `safe_eval`: the source reads only its
argument and the module-level constant dispatch tables, performs no I/O and
mutates no state, so it is embedded as a pure function; two calls on the
same text are therefore the same term and yield the same numeric result or
the same error. -/
theorem c8_deterministic : ∀ s : String, safe_eval s = safe_eval s :=
  fun _ => rfl

/-- C9: From a freshly created state, `append "1"`, `append "+"`,
`append "2"` yields expression text `"1+2"`; a following `backspace`
yields `"1+"`; a following `clear` resets the state to expression `""`,
result `"0"`, error `""`. -/
theorem c9_state_flow :
    ((((({} : CalculatorState).append "1").append "+").append "2").expression
       = "1+2") ∧
    (((({} : CalculatorState).append "1").append "+").append "2").backspace.expression
       = "1+" ∧
    (((({} : CalculatorState).append "1").append "+").append "2").backspace.clear
       = { expression := "", result := "0", error := "" } := by
  refine ⟨rfl, ?_, ?_⟩ <;> decide

/-- C10: `backspace` on a state with empty expression text leaves the whole
state unchanged (and signals no error, being a total function); `append`
and `backspace` never touch the `result` and `error` fields. -/
theorem c10_frame_effects (s : CalculatorState) (v : String) :
    (s.expression = "" → s.backspace = s) ∧
    (s.append v).result = s.result ∧
    (s.append v).error = s.error ∧
    s.backspace.result = s.result ∧
    s.backspace.error = s.error := by
  refine ⟨fun h => by simp [CalculatorState.backspace, h], rfl, rfl, ?_, ?_⟩ <;>
    · unfold CalculatorState.backspace
      split <;> rfl

/-- C10 witness: on the empty initial state, `backspace` is the identity,
and `append "5"` leaves `result` and `error` untouched. -/
theorem c10_witness :
    (({} : CalculatorState).expression = "") ∧
    ({} : CalculatorState).backspace = ({} : CalculatorState) ∧
    (({} : CalculatorState).append "5").result = ({} : CalculatorState).result ∧
    (({} : CalculatorState).append "5").error = ({} : CalculatorState).error :=
  ⟨rfl, (c10_frame_effects {} "5").1 rfl,
   (c10_frame_effects {} "5").2.1, (c10_frame_effects {} "5").2.2.1⟩
